import Mathlib

/-!
Verification of the OST-Maker export coordinator and worker functions.

The Python source is shallowly embedded:

* filesystem paths are modelled by their list of segments
  (`os.path.join a b` appends a segment, `os.path.basename` is the last
  segment, `os.path.dirname` drops it);
* `os.path.splitext` is modelled faithfully on the character list of a
  file name, including CPython's rule that a name consisting only of
  leading dots has no extension;
* the `ExportManager` methods (`submit_task`, `_on_task_completed`,
  `_on_task_failed`) become pure functions from the current
  `active_tasks` registry (a `Finset` of keys, matching the Python
  `set`) to the new registry together with the list of emitted Qt
  signals and the list of tasks handed to the process pool;
* the worker functions (`run_export_process`,
  `_render_midi_to_wav_internal`, `MidiRenderWorker.run`) become
  functions from the outcome of each external tool invocation
  (`ToolResult`: exit code, stderr, whether the output file appeared)
  to the returned value or raised error, paired with the ordered trace
  of filesystem operations the call performs.  Fresh `uuid4` names are
  passed in as parameters; `shutil.copy` of an existing source is
  assumed to succeed, and a freshly named tool output file exists
  afterwards exactly when the tool produced it.
-/

namespace OSTMaker

/-- A filesystem path, as its list of segments. -/
abbrev Path := List String

/-- Model of `os.path.basename`: the last path segment (empty for the empty path). -/
def basename (p : Path) : String := p.reverse.headD ""

/-- Model of `os.path.dirname`: the path without its last segment. -/
def dirname (p : Path) : Path := p.dropLast

/-- Core of `os.path.splitext` on the characters of a file name: split at
the last dot, unless every character before that dot is itself a dot
(CPython treats such names, e.g. `".bashrc"` or `"..."`, as having no
extension). -/
def splitextChars (cs : List Char) : List Char × List Char :=
  let extLen := (cs.reverse.takeWhile (fun c => c != '.')).length
  if extLen < cs.length ∧ (cs.take (cs.length - extLen - 1)).any (fun c => c != '.') then
    (cs.take (cs.length - extLen - 1), cs.drop (cs.length - extLen - 1))
  else
    (cs, [])

/-- Model of `os.path.splitext` on a file name. -/
def splitext (s : String) : String × String :=
  let r := splitextChars s.data
  (String.mk r.1, String.mk r.2)

/-- Model of `config.WORK_DIR` (directory of the script; environment dependent). -/
def WORK_DIR : Path := ["WORK"]

/-- Model of `config.MUSIC_DIR = os.path.join(WORK_DIR, "Music")`. -/
def MUSIC_DIR : Path := WORK_DIR ++ ["Music"]

/-- Model of `config.MOVIE_DIR = os.path.join(WORK_DIR, "Movie")`. -/
def MOVIE_DIR : Path := WORK_DIR ++ ["Movie"]

/-- Model of `config.TEMP_DIR` (under the system temp directory). -/
def TEMP_DIR : Path := ["TMP", "game_music_video_maker"]

/-- The Qt signals emitted by `ExportManager`. -/
inductive Event where
  | statusUpdate (msg : String) (ms : Nat)
  | taskSubmitted (key : Path)
  | taskFinished (path : Path)
  | taskFailed (key : Path) (errMsg : String)
deriving DecidableEq, Repr

/-- One task handed to the process pool by `pool.apply_async`: the
positional arguments of `run_export_process`, plus the key captured by
the registered `error_callback` closure
(`lambda e: self._on_task_failed(music_path, e)`). -/
structure ExportTask where
  music_path : Path
  image_path : Path
  output_path : Path
  onFailureKey : Path
deriving DecidableEq, Repr

/-- Result of `ExportManager.submit_task`: the returned boolean, the new
`active_tasks` registry, the emitted signals (in order), and the tasks
dispatched to the pool. -/
structure SubmitResult where
  accepted : Bool
  active : Finset Path
  events : List Event
  dispatched : List ExportTask
deriving DecidableEq

/-- Model of `ExportManager.submit_task`. -/
def submit_task (active : Finset Path) (music_path image_path : Path) : SubmitResult :=
  if music_path ∈ active then
    ⟨false, active, [], []⟩
  else
    let base_name := (splitext (basename music_path)).1
    let project_name := basename (dirname music_path)
    let output_path := MOVIE_DIR ++ [project_name, base_name ++ ".mp4"]
    ⟨true, insert music_path active,
      [Event.statusUpdate ("任务已添加: " ++ base_name ++ ".mp4") 3000,
       Event.taskSubmitted music_path],
      [⟨music_path, image_path, output_path, music_path⟩]⟩

/-- The fixed extension priority order tried by `_on_task_completed`. -/
def possible_extensions : List String := [".mid", ".mp3", ".wav"]

/-- The candidate key reconstructed for one extension:
`os.path.join(MUSIC_DIR, project_name, base_name + ext)`. -/
def candidateKey (project_name base_name ext : String) : Path :=
  MUSIC_DIR ++ [project_name, base_name ++ ext]

/-- Model of `ExportManager._on_task_completed` (the `callback` of
`apply_async`): parse the result path, search the candidate keys in
extension-priority order, remove the first one present in the registry
and emit `task_finished`; if none matches, leave the registry unchanged
and still emit `task_finished`. -/
def on_task_completed (active : Finset Path) (result_path : Path) :
    Finset Path × List Event :=
  let output_filename := basename result_path
  let project_name := basename (dirname result_path)
  let base_name := (splitext output_filename).1
  match possible_extensions.find?
      (fun ext => decide (candidateKey project_name base_name ext ∈ active)) with
  | some ext =>
      (active.erase (candidateKey project_name base_name ext),
       [Event.statusUpdate ("制作完成: " ++ output_filename) 5000,
        Event.taskFinished result_path])
  | none =>
      (active, [Event.taskFinished result_path])

/-- A pool-delivered error object; `msg` is its `str(...)` rendering. -/
structure PoolError where
  msg : String
deriving DecidableEq, Repr

/-- Model of `ExportManager._on_task_failed` (the `error_callback`): remove the
key if present, emit a status message and `task_failed` with the
stringified error. -/
def on_task_failed (active : Finset Path) (music_path : Path) (error : PoolError) :
    Finset Path × List Event :=
  let active' := if music_path ∈ active then active.erase music_path else active
  (active',
   [Event.statusUpdate ("制作失败: " ++ basename music_path) 5000,
    Event.taskFailed music_path error.msg])

/-! ### Lemmas about path parsing -/

/-- Pushing `takeWhile` over an append whose left part wholly satisfies
the predicate. -/
theorem takeWhile_append_of_all {α : Type} (p : α → Bool) (l₁ l₂ : List α)
    (h : ∀ x ∈ l₁, p x = true) :
    (l₁ ++ l₂).takeWhile p = l₁ ++ l₂.takeWhile p := by
  induction l₁ with
  | nil => simp
  | cons a t ih =>
      simp [List.takeWhile_cons, h a (List.mem_cons_self a t),
        ih (fun x hx => h x (List.mem_cons_of_mem a hx))]

/-- The `splitext` core recovers a base name and a dot-led extension, as
long as the base name is not made only of dots and the extension has no
further dot. -/
theorem splitextChars_append (bs rest : List Char)
    (hb : bs.any (fun c => c != '.') = true)
    (hr : ∀ c ∈ rest, (c != '.') = true) :
    splitextChars (bs ++ '.' :: rest) = (bs, '.' :: rest) := by
  have htw : (bs ++ '.' :: rest).reverse.takeWhile (fun c => c != '.') = rest.reverse := by
    rw [List.reverse_append, List.reverse_cons, List.append_assoc,
      takeWhile_append_of_all _ _ _ (fun x hx => hr x (List.mem_reverse.mp hx))]
    simp [List.takeWhile_cons]
  have hlen : (bs ++ '.' :: rest).length - rest.reverse.length - 1 = bs.length := by
    simp only [List.length_append, List.length_cons, List.length_reverse]
    omega
  unfold splitextChars
  simp only [htw, hlen]
  rw [List.take_left' rfl, List.drop_left' rfl,
    if_pos ⟨by simp only [List.length_append, List.length_cons, List.length_reverse]; omega, hb⟩]

/-- `os.path.splitext` inverts appending the `.mp4` extension. -/
theorem splitext_mp4 (b : String) (hb : b.data.any (fun c => c != '.') = true) :
    splitext (b ++ ".mp4") = (b, ".mp4") := by
  unfold splitext
  have h : (b ++ ".mp4").data = b.data ++ '.' :: ['m', 'p', '4'] := rfl
  rw [h, splitextChars_append b.data ['m', 'p', '4'] hb (by decide)]

/-- The file-name component of a two-segment path under `MOVIE_DIR`. -/
theorem basename_movie (p f : String) : basename (MOVIE_DIR ++ [p, f]) = f := rfl

/-- The project component of a two-segment path under `MOVIE_DIR`. -/
theorem project_movie (p f : String) : basename (dirname (MOVIE_DIR ++ [p, f])) = p := rfl

/-- Cancelling a common prefix of two equal string concatenations. -/
theorem strAppendLeftCancel {a b c : String} (h : a ++ b = a ++ c) : b = c := by
  have hd : b.data = c.data := List.append_cancel_left (congrArg String.data h)
  cases b; cases c; exact congrArg String.mk hd

/-- Two candidate keys with the same project and base agree only if the
extensions agree. -/
theorem candidateKey_inj_ext {p b e₁ e₂ : String}
    (h : candidateKey p b e₁ = candidateKey p b e₂) : e₁ = e₂ := by
  have h' : b ++ e₁ = b ++ e₂ := by
    simpa [candidateKey, MUSIC_DIR, WORK_DIR] using h
  exact strAppendLeftCancel h'

/-! ### Behaviour of the coordinator on each branch -/

/-- On a key already reserved, `submit_task` rejects and does nothing. -/
theorem submit_task_mem (active : Finset Path) (m i : Path) (h : m ∈ active) :
    submit_task active m i = ⟨false, active, [], []⟩ := by
  simp [submit_task, h]

/-- On a fresh key, `submit_task` reserves it, emits the two signals and
dispatches exactly one task. -/
theorem submit_task_not_mem (active : Finset Path) (m i : Path) (h : m ∉ active) :
    submit_task active m i =
      ⟨true, insert m active,
        [Event.statusUpdate ("任务已添加: " ++ (splitext (basename m)).1 ++ ".mp4") 3000,
         Event.taskSubmitted m],
        [⟨m, i, MOVIE_DIR ++ [basename (dirname m), (splitext (basename m)).1 ++ ".mp4"], m⟩]⟩ := by
  simp [submit_task, h]

/-- The completion callback's extension search succeeds exactly on the
first extension whose candidate key is registered. -/
theorem find_extension_resolves (active : Finset Path) (p b e : String)
    (he : e = ".mid"
      ∨ (e = ".mp3" ∧ candidateKey p b ".mid" ∉ active)
      ∨ (e = ".wav" ∧ candidateKey p b ".mid" ∉ active ∧ candidateKey p b ".mp3" ∉ active))
    (hk : candidateKey p b e ∈ active) :
    possible_extensions.find?
      (fun ext => decide (candidateKey p b ext ∈ active)) = some e := by
  rcases he with rfl | ⟨rfl, h1⟩ | ⟨rfl, h1, h2⟩
  · exact List.find?_cons_of_pos _ (by simpa using hk)
  · rw [show possible_extensions = ".mid" :: [".mp3", ".wav"] from rfl,
      List.find?_cons_of_neg _ (by simpa using h1)]
    exact List.find?_cons_of_pos _ (by simpa using hk)
  · rw [show possible_extensions = ".mid" :: ".mp3" :: [".wav"] from rfl,
      List.find?_cons_of_neg _ (by simpa using h1),
      List.find?_cons_of_neg _ (by simpa using h2)]
    exact List.find?_cons_of_pos _ (by simpa using hk)

/-- Completion callback, matched case: the first registered candidate key
is removed and `task_finished` is emitted. -/
theorem on_task_completed_resolved (active : Finset Path) (p b e : String)
    (hb : b.data.any (fun c => c != '.') = true)
    (he : e = ".mid"
      ∨ (e = ".mp3" ∧ candidateKey p b ".mid" ∉ active)
      ∨ (e = ".wav" ∧ candidateKey p b ".mid" ∉ active ∧ candidateKey p b ".mp3" ∉ active))
    (hk : candidateKey p b e ∈ active) :
    on_task_completed active (MOVIE_DIR ++ [p, b ++ ".mp4"]) =
      (active.erase (candidateKey p b e),
       [Event.statusUpdate ("制作完成: " ++ (b ++ ".mp4")) 5000,
        Event.taskFinished (MOVIE_DIR ++ [p, b ++ ".mp4"])]) := by
  unfold on_task_completed
  simp only [basename_movie, project_movie, splitext_mp4 b hb,
    find_extension_resolves active p b e he hk]

/-- Completion callback, anomaly case: no candidate key is registered, the
registry is unchanged and `task_finished` is still emitted. -/
theorem on_task_completed_none (active : Finset Path) (result_path : Path)
    (h : ∀ e ∈ possible_extensions,
      candidateKey (basename (dirname result_path))
        ((splitext (basename result_path)).1) e ∉ active) :
    on_task_completed active result_path = (active, [Event.taskFinished result_path]) := by
  have hfind : possible_extensions.find?
      (fun ext => decide (candidateKey (basename (dirname result_path))
        ((splitext (basename result_path)).1) ext ∈ active)) = none :=
    List.find?_eq_none.mpr (fun x hx => by simpa using h x hx)
  unfold on_task_completed
  simp only [hfind]

/-- The failure callback always ends with the key erased (a no-op when it
was absent) and the two signals emitted. -/
theorem on_task_failed_eq (active : Finset Path) (k : Path) (e : PoolError) :
    on_task_failed active k e =
      (active.erase k,
       [Event.statusUpdate ("制作失败: " ++ basename k) 5000,
        Event.taskFailed k e.msg]) := by
  unfold on_task_failed
  by_cases h : k ∈ active
  · simp [h]
  · simp [h, Finset.erase_eq_self.mpr h]

/-! ### Claims about the coordinator -/

/-- C1: if the key is already registered, `submit_task` returns `false`,
emits nothing, dispatches nothing and leaves the registry unchanged;
otherwise it registers the key, emits `task_submitted`, dispatches
exactly one task and returns `true`, and a second submit of the same key
before its terminal event is rejected. -/
theorem claim1_submit_dedup (active : Finset Path) (m i : Path) :
    (m ∈ active → submit_task active m i = ⟨false, active, [], []⟩)
    ∧ (m ∉ active →
        (submit_task active m i).accepted = true
        ∧ (submit_task active m i).active = insert m active
        ∧ Event.taskSubmitted m ∈ (submit_task active m i).events
        ∧ (submit_task active m i).dispatched.length = 1
        ∧ (submit_task (submit_task active m i).active m i).accepted = false) := by
  refine ⟨fun h => submit_task_mem active m i h, fun h => ?_⟩
  rw [submit_task_not_mem active m i h]
  refine ⟨rfl, rfl, by simp, rfl, ?_⟩
  have hsec := submit_task_mem (insert m active) m i (Finset.mem_insert_self m active)
  simp [hsec]

/-- C1 witness at a concrete key. -/
theorem claim1_witness :
    (submit_task ∅ (MUSIC_DIR ++ ["Demo", "song.mid"]) ["cover.png"]).accepted = true
    ∧ (submit_task (submit_task ∅ (MUSIC_DIR ++ ["Demo", "song.mid"]) ["cover.png"]).active
        (MUSIC_DIR ++ ["Demo", "song.mid"]) ["cover.png"]).accepted = false := by
  have h := (claim1_submit_dedup ∅ (MUSIC_DIR ++ ["Demo", "song.mid"]) ["cover.png"]).2
    (by decide)
  exact ⟨h.1, h.2.2.2.2⟩

/-- C2: for a result path `MOVIE_DIR/<p>/<b>.mp4`, the completion
callback reconstructs the candidate keys in the order
`.mid`, `.mp3`, `.wav`, removes the first one present in the registry
and emits `task_finished` with the result path. -/
theorem claim2_reconciliation (active : Finset Path) (p b e : String)
    (hb : b.data.any (fun c => c != '.') = true)
    (he : e = ".mid"
      ∨ (e = ".mp3" ∧ candidateKey p b ".mid" ∉ active)
      ∨ (e = ".wav" ∧ candidateKey p b ".mid" ∉ active ∧ candidateKey p b ".mp3" ∉ active))
    (hk : candidateKey p b e ∈ active) :
    on_task_completed active (MOVIE_DIR ++ [p, b ++ ".mp4"]) =
      (active.erase (candidateKey p b e),
       [Event.statusUpdate ("制作完成: " ++ (b ++ ".mp4")) 5000,
        Event.taskFinished (MOVIE_DIR ++ [p, b ++ ".mp4"])]) :=
  on_task_completed_resolved active p b e hb he hk

/-- C2 witness: the registry holds only `music/ProjectA/Track3.mp3` and
resolution still succeeds via the extension-priority search. -/
theorem claim2_witness :
    on_task_completed {candidateKey "ProjectA" "Track3" ".mp3"}
        (MOVIE_DIR ++ ["ProjectA", "Track3" ++ ".mp4"]) =
      (({candidateKey "ProjectA" "Track3" ".mp3"} : Finset Path).erase
          (candidateKey "ProjectA" "Track3" ".mp3"),
       [Event.statusUpdate ("制作完成: " ++ ("Track3" ++ ".mp4")) 5000,
        Event.taskFinished (MOVIE_DIR ++ ["ProjectA", "Track3" ++ ".mp4"])]) :=
  claim2_reconciliation {candidateKey "ProjectA" "Track3" ".mp3"} "ProjectA" "Track3" ".mp3"
    (by decide) (Or.inr (Or.inl ⟨rfl, by decide⟩)) (by decide)

/-- C3: when no reconstructed candidate key is registered, the completion
callback leaves the registry unchanged and still emits `task_finished`
(the model is total, so no exception escapes). -/
theorem claim3_anomaly_tolerance (active : Finset Path) (result_path : Path)
    (h : ∀ e ∈ possible_extensions,
      candidateKey (basename (dirname result_path))
        ((splitext (basename result_path)).1) e ∉ active) :
    on_task_completed active result_path = (active, [Event.taskFinished result_path]) :=
  on_task_completed_none active result_path h

/-- C3 witness on an empty registry. -/
theorem claim3_witness :
    on_task_completed ∅ (MOVIE_DIR ++ ["ProjectA", "Track3.mp4"]) =
      (∅, [Event.taskFinished (MOVIE_DIR ++ ["ProjectA", "Track3.mp4"])]) :=
  claim3_anomaly_tolerance ∅ (MOVIE_DIR ++ ["ProjectA", "Track3.mp4"]) (by decide)

/-- C7: every dispatched task's failure callback closes over the original
key, and the failure handler removes the key when present (no-op
otherwise), never raises (it is total), and emits `task_failed` with the
stringified error. -/
theorem claim7_failure_callback :
    (∀ (active : Finset Path) (m i : Path),
      ((submit_task active m i).dispatched.all (fun t => t.onFailureKey == m)) = true)
    ∧ (∀ (active : Finset Path) (k : Path) (e : PoolError),
        on_task_failed active k e =
          (active.erase k,
           [Event.statusUpdate ("制作失败: " ++ basename k) 5000,
            Event.taskFailed k e.msg])) := by
  refine ⟨fun active m i => ?_, fun active k e => on_task_failed_eq active k e⟩
  by_cases h : m ∈ active
  · rw [submit_task_mem active m i h]; rfl
  · rw [submit_task_not_mem active m i h]; simp

/-- C8 counterexample: the key `music/ProjectA/Track3.MID` (upper-case
extension) produces output `movie/ProjectA/Track3.mp4`, whose completion
goes through the anomaly branch: `task_finished` fires, yet the key stays
registered and resubmitting it is rejected. -/
theorem claim8_counterexample :
    (submit_task ∅ (MUSIC_DIR ++ ["ProjectA", "Track3.MID"]) ["cover.png"]).dispatched.map
        ExportTask.output_path = [MOVIE_DIR ++ ["ProjectA", "Track3.mp4"]]
    ∧ Event.taskFinished (MOVIE_DIR ++ ["ProjectA", "Track3.mp4"]) ∈
        (on_task_completed {MUSIC_DIR ++ ["ProjectA", "Track3.MID"]}
          (MOVIE_DIR ++ ["ProjectA", "Track3.mp4"])).2
    ∧ (on_task_completed {MUSIC_DIR ++ ["ProjectA", "Track3.MID"]}
          (MOVIE_DIR ++ ["ProjectA", "Track3.mp4"])).1
        = {MUSIC_DIR ++ ["ProjectA", "Track3.MID"]}
    ∧ (submit_task (on_task_completed {MUSIC_DIR ++ ["ProjectA", "Track3.MID"]}
          (MOVIE_DIR ++ ["ProjectA", "Track3.mp4"])).1
        (MUSIC_DIR ++ ["ProjectA", "Track3.MID"]) ["cover.png"]).accepted = false := by
  decide

/-- C8 amended: after a `task_failed` event, or after a `task_finished`
event whose reconciliation matched the key, resubmitting the key is
accepted; after a `task_finished` emitted by the no-candidate anomaly
branch the key remains registered and resubmission is rejected. -/
theorem claim8_resubmission :
    (∀ (active : Finset Path) (k i : Path) (e : PoolError),
      (submit_task (on_task_failed active k e).1 k i).accepted = true)
    ∧ (∀ (active : Finset Path) (p b ext : String) (i : Path),
        b.data.any (fun c => c != '.') = true →
        (ext = ".mid" ∨ (ext = ".mp3" ∧ candidateKey p b ".mid" ∉ active)
          ∨ (ext = ".wav" ∧ candidateKey p b ".mid" ∉ active ∧ candidateKey p b ".mp3" ∉ active)) →
        candidateKey p b ext ∈ active →
        (submit_task (on_task_completed active (MOVIE_DIR ++ [p, b ++ ".mp4"])).1
          (candidateKey p b ext) i).accepted = true)
    ∧ (∀ (active : Finset Path) (result_path k i : Path),
        (∀ e ∈ possible_extensions,
          candidateKey (basename (dirname result_path))
            ((splitext (basename result_path)).1) e ∉ active) →
        k ∈ active →
        (submit_task (on_task_completed active result_path).1 k i).accepted = false) := by
  refine ⟨fun active k i e => ?_, fun active p b ext i hb he hk => ?_,
    fun active rp k i hnone hk => ?_⟩
  · rw [on_task_failed_eq active k e]
    simp [submit_task, Finset.not_mem_erase]
  · rw [on_task_completed_resolved active p b ext hb he hk]
    simp [submit_task, Finset.not_mem_erase]
  · rw [on_task_completed_none active rp hnone]
    simp [submit_task, hk]

/-- C8 amended witness at concrete keys for the three branches. -/
theorem claim8_witness :
    (submit_task (on_task_failed {MUSIC_DIR ++ ["Demo", "a.mp3"]}
        (MUSIC_DIR ++ ["Demo", "a.mp3"]) ⟨"boom"⟩).1
      (MUSIC_DIR ++ ["Demo", "a.mp3"]) ["img.png"]).accepted = true
    ∧ (submit_task (on_task_completed {candidateKey "Demo" "a" ".mp3"}
          (MOVIE_DIR ++ ["Demo", "a" ++ ".mp4"])).1
        (candidateKey "Demo" "a" ".mp3") ["img.png"]).accepted = true
    ∧ (submit_task (on_task_completed {MUSIC_DIR ++ ["Demo", "a.MID"]}
          (MOVIE_DIR ++ ["Demo", "a.mp4"])).1
        (MUSIC_DIR ++ ["Demo", "a.MID"]) ["img.png"]).accepted = false :=
  ⟨claim8_resubmission.1 {MUSIC_DIR ++ ["Demo", "a.mp3"]} (MUSIC_DIR ++ ["Demo", "a.mp3"])
      ["img.png"] ⟨"boom"⟩,
   claim8_resubmission.2.1 {candidateKey "Demo" "a" ".mp3"} "Demo" "a" ".mp3" ["img.png"]
      (by decide) (Or.inr (Or.inl ⟨rfl, by decide⟩)) (by decide),
   claim8_resubmission.2.2 {MUSIC_DIR ++ ["Demo", "a.MID"]} (MOVIE_DIR ++ ["Demo", "a.mp4"])
      (MUSIC_DIR ++ ["Demo", "a.MID"]) ["img.png"] (by decide) (by decide)⟩

/-- C10: when two keys with the same project and base but distinct
extensions are both registered, completion of the shared output path
releases the key whose extension comes first in the priority order; the
other key (of a possibly still-running task) stays registered. -/
theorem claim10_priority (active : Finset Path) (p b e₁ e₂ : String)
    (hb : b.data.any (fun c => c != '.') = true)
    (hpair : (e₁ = ".mid" ∧ (e₂ = ".mp3" ∨ e₂ = ".wav"))
        ∨ (e₁ = ".mp3" ∧ e₂ = ".wav" ∧ candidateKey p b ".mid" ∉ active))
    (h1 : candidateKey p b e₁ ∈ active) (h2 : candidateKey p b e₂ ∈ active) :
    on_task_completed active (MOVIE_DIR ++ [p, b ++ ".mp4"]) =
      (active.erase (candidateKey p b e₁),
       [Event.statusUpdate ("制作完成: " ++ (b ++ ".mp4")) 5000,
        Event.taskFinished (MOVIE_DIR ++ [p, b ++ ".mp4"])])
    ∧ candidateKey p b e₂ ∈ (on_task_completed active (MOVIE_DIR ++ [p, b ++ ".mp4"])).1 := by
  have hne : e₂ ≠ e₁ := by
    rcases hpair with ⟨rfl, rfl | rfl⟩ | ⟨rfl, rfl, _⟩ <;> decide
  have he : e₁ = ".mid" ∨ (e₁ = ".mp3" ∧ candidateKey p b ".mid" ∉ active)
      ∨ (e₁ = ".wav" ∧ candidateKey p b ".mid" ∉ active ∧ candidateKey p b ".mp3" ∉ active) := by
    rcases hpair with ⟨h, _⟩ | ⟨h, _, hmid⟩
    · exact Or.inl h
    · exact Or.inr (Or.inl ⟨h, hmid⟩)
  have heq := on_task_completed_resolved active p b e₁ hb he h1
  refine ⟨heq, ?_⟩
  rw [heq]
  exact Finset.mem_erase.mpr ⟨fun hc => hne (candidateKey_inj_ext hc), h2⟩

/-- C10 witness: both the `.mid` and `.mp3` keys are registered; the
`.mid` one is released and the `.mp3` one stays. -/
theorem claim10_witness :
    candidateKey "ProjectA" "Track3" ".mp3" ∈
      (on_task_completed
        {candidateKey "ProjectA" "Track3" ".mid", candidateKey "ProjectA" "Track3" ".mp3"}
        (MOVIE_DIR ++ ["ProjectA", "Track3" ++ ".mp4"])).1
    ∧ (on_task_completed
        {candidateKey "ProjectA" "Track3" ".mid", candidateKey "ProjectA" "Track3" ".mp3"}
        (MOVIE_DIR ++ ["ProjectA", "Track3" ++ ".mp4"])).1
      = ({candidateKey "ProjectA" "Track3" ".mid", candidateKey "ProjectA" "Track3" ".mp3"} :
          Finset Path).erase (candidateKey "ProjectA" "Track3" ".mid") := by
  have h := claim10_priority
    {candidateKey "ProjectA" "Track3" ".mid", candidateKey "ProjectA" "Track3" ".mp3"}
    "ProjectA" "Track3" ".mid" ".mp3" (by decide) (Or.inl ⟨rfl, Or.inl rfl⟩)
    (by decide) (by decide)
  exact ⟨h.2, by rw [h.1]⟩

/-! ### Worker processes: tool outcomes and filesystem traces -/

/-- Outcome of one external subprocess invocation (`subprocess.run` with
`check=False`): its exit code, its captured stderr, and whether it
created its output file. -/
structure ToolResult where
  returncode : Int
  stderr : String
  produced : Bool
deriving DecidableEq, Repr

/-- The two external tools invoked by the workers. -/
inductive Tool where
  | synth
  | mux
deriving DecidableEq, Repr

/-- One filesystem side effect performed by the worker code, in program
order.  `toolWrite` is a subprocess writing its output file in place at
`target` (the complete file exists afterwards only when `ok`; while the
subprocess runs the target may hold partial content). -/
inductive FsOp where
  | copy (src dst : Path)
  | toolWrite (tool : Tool) (target : Path) (ok : Bool)
  | removeIfExists (p : Path)
  | rename (src dst : Path)
deriving DecidableEq, Repr

/-- The set of existing (complete) files, as a list of paths. -/
abbrev FS := List Path

/-- A file appears. -/
def fsAdd (fs : FS) (p : Path) : FS := p :: fs

/-- A file disappears (`if os.path.exists(p): os.remove(p)` semantics). -/
def fsRemove (fs : FS) (p : Path) : FS := fs.filter (fun q => q != p)

/-- Effect of one operation on the set of existing files. -/
def applyOp (fs : FS) : FsOp → FS
  | .copy _ dst => fsAdd fs dst
  | .toolWrite _ t ok => if ok then fsAdd fs t else fs
  | .removeIfExists p => fsRemove fs p
  | .rename src dst => fsAdd (fsRemove fs src) dst

/-- Effect of a whole trace. -/
def applyTrace (fs : FS) (tr : List FsOp) : FS := tr.foldl applyOp fs

/-- Temp path of the safe MIDI copy made by `_render_midi_to_wav_internal`
(`render_in_<uuid>.mid` under `TEMP_DIR`). -/
def renderInPath (n : String) : Path := TEMP_DIR ++ ["render_in_" ++ n ++ ".mid"]

/-- Temp path of the safe WAV output of `_render_midi_to_wav_internal`
(`render_out_<uuid>.wav` under `TEMP_DIR`). -/
def renderOutPath (n : String) : Path := TEMP_DIR ++ ["render_out_" ++ n ++ ".wav"]

/-- Message of the `RuntimeError` raised when fluidsynth fails. -/
def fluidErrMsg (stderr : String) : String :=
  "FluidSynth渲染失败，无法创建输出文件。\n错误信息: " ++ stderr

/-- Model of `_render_midi_to_wav_internal`: copy the input to a safe temp
name, run fluidsynth onto a safe temp output, raise when the tool exits
non-zero or its output file is missing, else remove any pre-existing file
at `output` and rename the temp output onto it; the `finally` block
removes both temps on every exit path.  `n₁`, `n₂` are the fresh `uuid4`
names; the freshly named temp output exists afterwards exactly when the
tool produced it. -/
def render_midi_to_wav_internal (input output : Path) (n₁ n₂ : String)
    (res : ToolResult) : Except String Unit × List FsOp :=
  if res.returncode ≠ 0 ∨ res.produced = false then
    (Except.error (fluidErrMsg res.stderr),
     [FsOp.copy input (renderInPath n₁),
      FsOp.toolWrite Tool.synth (renderOutPath n₂) res.produced,
      FsOp.removeIfExists (renderInPath n₁),
      FsOp.removeIfExists (renderOutPath n₂)])
  else
    (Except.ok (),
     [FsOp.copy input (renderInPath n₁),
      FsOp.toolWrite Tool.synth (renderOutPath n₂) res.produced,
      FsOp.removeIfExists output,
      FsOp.rename (renderOutPath n₂) output,
      FsOp.removeIfExists (renderInPath n₁),
      FsOp.removeIfExists (renderOutPath n₂)])

/-- The cached WAV path used by the preview workers:
`os.path.join(TEMP_DIR, basename + ".wav")`. -/
def cachedWavPath (midi_path : Path) : Path :=
  TEMP_DIR ++ [basename midi_path ++ ".wav"]

/-- Model of `MidiRenderWorker.run`: render the MIDI into its cache slot
and report `finished(path)` or `error(msg)`. -/
def MidiRenderWorker_run (midi_path : Path) (n₁ n₂ : String) (res : ToolResult) :
    Except String Path × List FsOp :=
  let r := render_midi_to_wav_internal midi_path (cachedWavPath midi_path) n₁ n₂ res
  (match r.1 with
   | Except.ok _ => Except.ok (cachedWavPath midi_path)
   | Except.error e => Except.error e, r.2)

/-- Lower-casing of a string (`str.lower()`). -/
def strLower (s : String) : String := String.mk (s.data.map Char.toLower)

/-- Bool test that `s` ends with `tail`. -/
def hasSuffix (s tail : List Char) : Bool := s.reverse.take tail.length == tail.reverse

/-- Model of `music_path.lower().endswith('.mid')`. -/
def isMidiPath (p : Path) : Bool :=
  hasSuffix (strLower (basename p)).data ['.', 'm', 'i', 'd']

/-- Temp path of the safe MIDI copy made by `run_export_process`
(`export_in_<uuid>.mid` under `TEMP_DIR`). -/
def safeExportInPath (n : String) : Path := TEMP_DIR ++ ["export_in_" ++ n ++ ".mid"]

/-- Temp path of the intermediate rendered WAV of `run_export_process`
(`_temp_export_<uuid>.wav` next to the output file). -/
def tempWavPath (output : Path) (n : String) : Path :=
  dirname output ++ ["_temp_export_" ++ n ++ ".wav"]

/-- Message of the `RuntimeError` raised when ffmpeg exits non-zero. -/
def ffmpegErrMsg (stderr : String) : String := "FFmpeg合成失败: " ++ stderr

/-- Model of `run_export_process`: for a MIDI source, copy it to a safe
temp name and render it to an intermediate WAV next to the output file,
then run ffmpeg; ffmpeg writes the MP4 in place at `output_path` and only
its exit code is checked; the `finally` block removes the two temps of
this call on every exit path.  `e₁ w₁ r₁ r₂` are the fresh `uuid4`
names, `fsRes`/`ffRes` the outcomes of the two subprocesses. -/
def run_export_process (music_path image_path output_path : Path)
    (e₁ w₁ r₁ r₂ : String) (fsRes ffRes : ToolResult) :
    Except String Path × List FsOp :=
  if isMidiPath music_path then
    let safe_in := safeExportInPath e₁
    let temp_wav := tempWavPath output_path w₁
    let r := render_midi_to_wav_internal safe_in temp_wav r₁ r₂ fsRes
    match r.1 with
    | Except.error e =>
        (Except.error e,
         (FsOp.copy music_path safe_in :: r.2)
           ++ [FsOp.removeIfExists safe_in, FsOp.removeIfExists temp_wav])
    | Except.ok _ =>
        ((if ffRes.returncode ≠ 0 then Except.error (ffmpegErrMsg ffRes.stderr)
          else Except.ok output_path),
         (FsOp.copy music_path safe_in :: r.2)
           ++ [FsOp.toolWrite Tool.mux output_path ffRes.produced,
               FsOp.removeIfExists safe_in, FsOp.removeIfExists temp_wav])
  else
    ((if ffRes.returncode ≠ 0 then Except.error (ffmpegErrMsg ffRes.stderr)
      else Except.ok output_path),
     [FsOp.toolWrite Tool.mux output_path ffRes.produced])

/-- Whether the call raised. -/
def isErr (r : Except String Path) : Bool :=
  match r with
  | .error _ => true
  | .ok _ => false

/-- Whether some subprocess in the trace writes its output directly at
`p` (the in-place, non-atomic way for a concurrent reader of `p`). -/
def toolWritesTo (tr : List FsOp) (p : Path) : Bool :=
  tr.any (fun op => match op with
    | FsOp.toolWrite _ t _ => t == p
    | _ => false)

/-- Number of synthesis-tool invocations in a trace. -/
def countSynth (tr : List FsOp) : Nat :=
  (tr.filter (fun op => match op with
    | FsOp.toolWrite Tool.synth _ _ => true
    | _ => false)).length

/-- All paths an operation reads, writes or removes. -/
def opPaths : FsOp → List Path
  | .copy s d => [s, d]
  | .toolWrite _ t _ => [t]
  | .removeIfExists p => [p]
  | .rename s d => [s, d]

/-- Whether the trace touches path `p` at all. -/
def touches (tr : List FsOp) (p : Path) : Bool :=
  tr.any (fun op => decide (p ∈ opPaths op))

/-! ### Claims about the worker function -/

/-- C4 counterexample: the muxing subprocess exits zero but its expected
output file does not exist, and the call still succeeds (the code checks
only ffmpeg's exit code). -/
theorem claim4_counterexample :
    (run_export_process (MUSIC_DIR ++ ["Demo", "song.mid"]) ["img.png"]
        (MOVIE_DIR ++ ["Demo", "song.mp4"]) "a" "b" "c" "d"
        ⟨0, "", true⟩ ⟨0, "", false⟩).1
      = Except.ok (MOVIE_DIR ++ ["Demo", "song.mp4"])
    ∧ (⟨0, "", false⟩ : ToolResult).returncode = 0
    ∧ (⟨0, "", false⟩ : ToolResult).produced = false :=
  ⟨rfl, rfl, rfl⟩

/-- C4 amended: the call fails exactly when the synthesis subprocess
exits non-zero or fails to produce its output file, or the muxing
subprocess exits non-zero; in each failure the error carries the
corresponding tool's stderr.  A zero-exit mux with a missing output file
is not detected. -/
theorem claim4_error_semantics (music image output : Path) (e₁ w₁ r₁ r₂ : String)
    (fsRes ffRes : ToolResult) :
    (isErr (run_export_process music image output e₁ w₁ r₁ r₂ fsRes ffRes).1 = true
      ↔ ((isMidiPath music = true ∧ (fsRes.returncode ≠ 0 ∨ fsRes.produced = false))
          ∨ ffRes.returncode ≠ 0))
    ∧ (isMidiPath music = true → (fsRes.returncode ≠ 0 ∨ fsRes.produced = false) →
        (run_export_process music image output e₁ w₁ r₁ r₂ fsRes ffRes).1
          = Except.error (fluidErrMsg fsRes.stderr))
    ∧ ((isMidiPath music = true → fsRes.returncode = 0 ∧ fsRes.produced = true) →
        ffRes.returncode ≠ 0 →
        (run_export_process music image output e₁ w₁ r₁ r₂ fsRes ffRes).1
          = Except.error (ffmpegErrMsg ffRes.stderr)) := by
  by_cases hm : isMidiPath music
  · by_cases hfs : fsRes.returncode ≠ 0 ∨ fsRes.produced = false
    · have hres : (run_export_process music image output e₁ w₁ r₁ r₂ fsRes ffRes).1
          = Except.error (fluidErrMsg fsRes.stderr) := by
        simp [run_export_process, render_midi_to_wav_internal, hm, hfs]
      refine ⟨?_, fun _ _ => hres, fun hok hff => ?_⟩
      · rw [hres]
        simp [isErr, hm, hfs]
      · exfalso
        rcases hfs with h1 | h1
        · exact h1 (hok hm).1
        · have h2 := (hok hm).2
          rw [h1] at h2
          exact Bool.false_ne_true h2
    · by_cases hff : ffRes.returncode ≠ 0
      · have hres : (run_export_process music image output e₁ w₁ r₁ r₂ fsRes ffRes).1
            = Except.error (ffmpegErrMsg ffRes.stderr) := by
          simp [run_export_process, render_midi_to_wav_internal, hm, hfs, hff]
        refine ⟨?_, fun _ hc => absurd hc hfs, fun _ _ => hres⟩
        rw [hres]
        simp [isErr, hff]
      · have hres : (run_export_process music image output e₁ w₁ r₁ r₂ fsRes ffRes).1
            = Except.ok output := by
          simp [run_export_process, render_midi_to_wav_internal, hm, hfs, hff]
        refine ⟨?_, fun _ hc => absurd hc hfs, fun _ hc => absurd hc hff⟩
        rw [hres]
        simp [isErr, hfs, hff]
  · by_cases hff : ffRes.returncode ≠ 0
    · have hres : (run_export_process music image output e₁ w₁ r₁ r₂ fsRes ffRes).1
          = Except.error (ffmpegErrMsg ffRes.stderr) := by
        simp [run_export_process, hm, hff]
      refine ⟨?_, fun hc _ => absurd hc (by simpa using hm), fun _ _ => hres⟩
      rw [hres]
      simp [isErr, hff]
    · have hres : (run_export_process music image output e₁ w₁ r₁ r₂ fsRes ffRes).1
          = Except.ok output := by
        simp [run_export_process, hm, hff]
      refine ⟨?_, fun hc _ => absurd hc (by simpa using hm), fun _ hc => absurd hc hff⟩
      rw [hres]
      simp [isErr, hm, hff]

/-- C4 amended witness: a failing synthesis run yields the FluidSynth
error carrying its stderr. -/
theorem claim4_witness :
    isErr (run_export_process (MUSIC_DIR ++ ["Demo", "song.mid"]) ["img.png"]
        (MOVIE_DIR ++ ["Demo", "song.mp4"]) "a" "b" "c" "d"
        ⟨1, "synth boom", false⟩ ⟨0, "", true⟩).1 = true
    ∧ (run_export_process (MUSIC_DIR ++ ["Demo", "song.mid"]) ["img.png"]
        (MOVIE_DIR ++ ["Demo", "song.mp4"]) "a" "b" "c" "d"
        ⟨1, "synth boom", false⟩ ⟨0, "", true⟩).1
      = Except.error (fluidErrMsg "synth boom") := by
  have h := claim4_error_semantics (MUSIC_DIR ++ ["Demo", "song.mid"]) ["img.png"]
    (MOVIE_DIR ++ ["Demo", "song.mp4"]) "a" "b" "c" "d"
    ⟨1, "synth boom", false⟩ ⟨0, "", true⟩
  exact ⟨h.1.mpr (Or.inl ⟨by decide, Or.inl (by decide)⟩),
    h.2.1 (by decide) (Or.inl (by decide))⟩

/-- C5 counterexample: on a successful MIDI export, the muxing subprocess
writes the final video in place at the derived output path (no temp file,
no rename), so the claimed always-atomic placement is violated at the
final output. -/
theorem claim5_counterexample :
    toolWritesTo (run_export_process (MUSIC_DIR ++ ["Demo", "song.mid"]) ["img.png"]
        (MOVIE_DIR ++ ["Demo", "song.mp4"]) "a" "b" "c" "d"
        ⟨0, "", true⟩ ⟨0, "", true⟩).2
      (MOVIE_DIR ++ ["Demo", "song.mp4"]) = true := by
  decide

/-- C5 amended: the intermediate rendered WAV is never written in place
by a tool — it is placed by remove-then-rename — while the final video is
written in place at the output path by the muxing tool. -/
theorem claim5_atomicity (music image output : Path) (e₁ w₁ r₁ r₂ : String)
    (fsRes ffRes : ToolResult) (hm : isMidiPath music = true)
    (hfs : fsRes.returncode = 0 ∧ fsRes.produced = true)
    (hro : renderOutPath r₂ ≠ tempWavPath output w₁)
    (ho : output ≠ tempWavPath output w₁) :
    toolWritesTo (run_export_process music image output e₁ w₁ r₁ r₂ fsRes ffRes).2
        (tempWavPath output w₁) = false
    ∧ FsOp.removeIfExists (tempWavPath output w₁) ∈
        (run_export_process music image output e₁ w₁ r₁ r₂ fsRes ffRes).2
    ∧ FsOp.rename (renderOutPath r₂) (tempWavPath output w₁) ∈
        (run_export_process music image output e₁ w₁ r₁ r₂ fsRes ffRes).2
    ∧ toolWritesTo (run_export_process music image output e₁ w₁ r₁ r₂ fsRes ffRes).2
        output = true := by
  have hfs' : ¬(fsRes.returncode ≠ 0 ∨ fsRes.produced = false) := by
    simp [hfs.1, hfs.2]
  refine ⟨?_, ?_, ?_, ?_⟩ <;>
    simp [run_export_process, render_midi_to_wav_internal, hm, hfs', toolWritesTo,
      beq_eq_false_iff_ne, hro, ho]

/-- C5 amended witness at concrete inputs. -/
theorem claim5_witness :
    toolWritesTo (run_export_process (MUSIC_DIR ++ ["Demo", "song.mid"]) ["img.png"]
        (MOVIE_DIR ++ ["Demo", "song.mp4"]) "a" "b" "c" "d"
        ⟨0, "", true⟩ ⟨0, "", true⟩).2
      (tempWavPath (MOVIE_DIR ++ ["Demo", "song.mp4"]) "b") = false
    ∧ toolWritesTo (run_export_process (MUSIC_DIR ++ ["Demo", "song.mid"]) ["img.png"]
        (MOVIE_DIR ++ ["Demo", "song.mp4"]) "a" "b" "c" "d"
        ⟨0, "", true⟩ ⟨0, "", true⟩).2
      (MOVIE_DIR ++ ["Demo", "song.mp4"]) = true := by
  have h := claim5_atomicity (MUSIC_DIR ++ ["Demo", "song.mid"]) ["img.png"]
    (MOVIE_DIR ++ ["Demo", "song.mp4"]) "a" "b" "c" "d"
    ⟨0, "", true⟩ ⟨0, "", true⟩ (by decide) (by decide) (by decide) (by decide)
  exact ⟨h.1, h.2.2.2⟩

/-- Membership after `fsAdd`. -/
theorem mem_fsAdd {fs : FS} {p q : Path} : p ∈ fsAdd fs q ↔ p = q ∨ p ∈ fs := by
  simp [fsAdd]

/-- Membership after `fsRemove`. -/
theorem mem_fsRemove {fs : FS} {p q : Path} : p ∈ fsRemove fs q ↔ p ∈ fs ∧ p ≠ q := by
  simp [fsRemove, List.mem_filter]

/-- C6: on a MIDI export, the four temporary files of the call (the safe
input copies, the safe render output and the intermediate WAV) are all
absent from the filesystem after the call, whatever the initial
filesystem and however the call exits (fresh `uuid4` temp names are
assumed distinct from the fixed output path). -/
theorem claim6_cleanup (fs0 : FS) (music image output : Path) (e₁ w₁ r₁ r₂ : String)
    (fsRes ffRes : ToolResult) (hm : isMidiPath music = true)
    (hri : renderInPath r₁ ≠ output) (hro : renderOutPath r₂ ≠ output) :
    safeExportInPath e₁ ∉
      applyTrace fs0 (run_export_process music image output e₁ w₁ r₁ r₂ fsRes ffRes).2
    ∧ tempWavPath output w₁ ∉
      applyTrace fs0 (run_export_process music image output e₁ w₁ r₁ r₂ fsRes ffRes).2
    ∧ renderInPath r₁ ∉
      applyTrace fs0 (run_export_process music image output e₁ w₁ r₁ r₂ fsRes ffRes).2
    ∧ renderOutPath r₂ ∉
      applyTrace fs0 (run_export_process music image output e₁ w₁ r₁ r₂ fsRes ffRes).2 := by
  by_cases hfs : fsRes.returncode ≠ 0 ∨ fsRes.produced = false <;>
    refine ⟨?_, ?_, ?_, ?_⟩ <;>
      simp [run_export_process, render_midi_to_wav_internal, hm, hfs, applyTrace,
        applyOp, mem_fsAdd, mem_fsRemove, hri, hro] <;>
      split_ifs <;>
      simp [mem_fsAdd, mem_fsRemove, hri, hro]

/-- C6 witness at concrete inputs, covering a failing and a succeeding
run. -/
theorem claim6_witness :
    renderOutPath "d" ∉
      applyTrace [MUSIC_DIR ++ ["Demo", "song.mid"]]
        (run_export_process (MUSIC_DIR ++ ["Demo", "song.mid"]) ["img.png"]
          (MOVIE_DIR ++ ["Demo", "song.mp4"]) "a" "b" "c" "d"
          ⟨0, "", true⟩ ⟨0, "", true⟩).2
    ∧ tempWavPath (MOVIE_DIR ++ ["Demo", "song.mp4"]) "b" ∉
      applyTrace [MUSIC_DIR ++ ["Demo", "song.mid"]]
        (run_export_process (MUSIC_DIR ++ ["Demo", "song.mid"]) ["img.png"]
          (MOVIE_DIR ++ ["Demo", "song.mp4"]) "a" "b" "c" "d"
          ⟨1, "boom", false⟩ ⟨0, "", true⟩).2 := by
  have h₁ := claim6_cleanup [MUSIC_DIR ++ ["Demo", "song.mid"]]
    (MUSIC_DIR ++ ["Demo", "song.mid"]) ["img.png"] (MOVIE_DIR ++ ["Demo", "song.mp4"])
    "a" "b" "c" "d" ⟨0, "", true⟩ ⟨0, "", true⟩ (by decide) (by decide) (by decide)
  have h₂ := claim6_cleanup [MUSIC_DIR ++ ["Demo", "song.mid"]]
    (MUSIC_DIR ++ ["Demo", "song.mid"]) ["img.png"] (MOVIE_DIR ++ ["Demo", "song.mp4"])
    "a" "b" "c" "d" ⟨1, "boom", false⟩ ⟨0, "", true⟩ (by decide) (by decide) (by decide)
  exact ⟨h₁.2.2.2, h₂.2.1⟩

/-- C9 counterexample: after a first preview render of a MIDI the cached
waveform exists, yet a second preview render of the same MIDI still
invokes the synthesis tool, and an export of the same MIDI also invokes
it and never touches the cache slot — so the cache is not consulted to
avoid redundant synthesis. -/
theorem claim9_counterexample :
    cachedWavPath (MUSIC_DIR ++ ["Demo", "song.mid"]) ∈
      applyTrace [MUSIC_DIR ++ ["Demo", "song.mid"]]
        (MidiRenderWorker_run (MUSIC_DIR ++ ["Demo", "song.mid"]) "a" "b" ⟨0, "", true⟩).2
    ∧ countSynth
        (MidiRenderWorker_run (MUSIC_DIR ++ ["Demo", "song.mid"]) "c" "d" ⟨0, "", true⟩).2 = 1
    ∧ countSynth
        (run_export_process (MUSIC_DIR ++ ["Demo", "song.mid"]) ["img.png"]
          (MOVIE_DIR ++ ["Demo", "song.mp4"]) "e" "f" "g" "h"
          ⟨0, "", true⟩ ⟨0, "", true⟩).2 = 1
    ∧ touches
        (run_export_process (MUSIC_DIR ++ ["Demo", "song.mid"]) ["img.png"]
          (MOVIE_DIR ++ ["Demo", "song.mp4"]) "e" "f" "g" "h"
          ⟨0, "", true⟩ ⟨0, "", true⟩).2
        (cachedWavPath (MUSIC_DIR ++ ["Demo", "song.mid"])) = false := by
  decide

/-- C9 amended: the cache slot is keyed by the MIDI's basename; the
preview worker writes its rendered waveform there but invokes synthesis
on every call, and the export worker invokes synthesis on every call and
touches only its own input, temps and output — never the cache slot. -/
theorem claim9_cache (m i o : Path) (n₁ n₂ e₁ w₁ r₁ r₂ : String)
    (res fsRes ffRes : ToolResult)
    (hres : res.returncode = 0 ∧ res.produced = true) (hm : isMidiPath m = true) :
    (MidiRenderWorker_run m n₁ n₂ res).1 = Except.ok (cachedWavPath m)
    ∧ countSynth (MidiRenderWorker_run m n₁ n₂ res).2 = 1
    ∧ countSynth (run_export_process m i o e₁ w₁ r₁ r₂ fsRes ffRes).2 = 1
    ∧ (∀ q : Path,
        touches (run_export_process m i o e₁ w₁ r₁ r₂ fsRes ffRes).2 q = true →
        q ∈ [m, safeExportInPath e₁, tempWavPath o w₁, renderInPath r₁,
             renderOutPath r₂, o]) := by
  have hres' : ¬(res.returncode ≠ 0 ∨ res.produced = false) := by
    simp [hres.1, hres.2]
  refine ⟨?_, ?_, ?_, ?_⟩
  · simp [MidiRenderWorker_run, render_midi_to_wav_internal, hres']
  · simp [MidiRenderWorker_run, render_midi_to_wav_internal, hres', countSynth]
  · by_cases hfs : fsRes.returncode ≠ 0 ∨ fsRes.produced = false <;>
      simp [run_export_process, render_midi_to_wav_internal, hm, hfs, countSynth]
  · intro q hq
    by_cases hfs : fsRes.returncode ≠ 0 ∨ fsRes.produced = false <;>
      simp [run_export_process, render_midi_to_wav_internal, hm, hfs, touches,
        opPaths] at hq <;>
      simp <;> tauto

/-- C9 amended witness at concrete inputs. -/
theorem claim9_witness :
    (MidiRenderWorker_run (MUSIC_DIR ++ ["Demo", "song.mid"]) "a" "b" ⟨0, "", true⟩).1
      = Except.ok (cachedWavPath (MUSIC_DIR ++ ["Demo", "song.mid"]))
    ∧ countSynth
        (MidiRenderWorker_run (MUSIC_DIR ++ ["Demo", "song.mid"]) "a" "b" ⟨0, "", true⟩).2 = 1
    ∧ countSynth
        (run_export_process (MUSIC_DIR ++ ["Demo", "song.mid"]) ["img.png"]
          (MOVIE_DIR ++ ["Demo", "song.mp4"]) "e" "f" "g" "h"
          ⟨0, "", true⟩ ⟨0, "", true⟩).2 = 1 := by
  have h := claim9_cache (MUSIC_DIR ++ ["Demo", "song.mid"]) ["img.png"]
    (MOVIE_DIR ++ ["Demo", "song.mp4"]) "a" "b" "e" "f" "g" "h"
    ⟨0, "", true⟩ ⟨0, "", true⟩ ⟨0, "", true⟩ (by decide) (by decide)
  exact ⟨h.1, h.2.1, h.2.2.1⟩

end OSTMaker
